import Mathlib

/-!
Verification of the gateway-target REST facade (TypeScript sources) against
its natural-language specification.  The definitions below are a shallow
embedding of the relevant TypeScript functions:

  * `updateGatewayTarget`  — ToolsService.updateGatewayTarget (the target
    update reconciler: fetch-current, merge, full-replace write);
  * `createGatewayTargetParams` / `registerToolWithGateway` — target creation
    and the placeholder-credential flow of AppController;
  * `validateAuth` and the per-endpoint error mapping of AppController;
  * `ensureS3Bucket` / `uploadOpenApiSpec` — S3Service;
  * `listGatewayTargetsRequest` / `listGatewaysRequest` — the list-parameter
    builders of ToolsService.listGatewayTargets and GatewayService.listGateways.

JavaScript `undefined` is modelled with `Option`; JavaScript truthiness of
strings (`undefined` and `""` are falsy) with `strTruthy`.  Remote services
are modelled as explicit parameters (a lookup function for the gateway store,
an ARN-assigning function for the credential service); the write call that a
service method issues is returned as data so that "no write was attempted"
is expressible.
-/

/-- JavaScript truthiness of a possibly-undefined string: `undefined` and the
empty string are falsy, every other string is truthy. -/
def strTruthy : Option String → Bool
  | none => false
  | some s => !s.isEmpty

/-- JavaScript `a || b` for a possibly-undefined string `a`: yields `b` when
`a` is `undefined` or empty. -/
def jsOrString (a : Option String) (b : String) : String :=
  match a with
  | none => b
  | some s => if s.isEmpty then b else s

/-- The `s3` node of a target configuration: `{ uri }`.  `uri` may be absent. -/
structure S3Ref where
  uri : Option String
deriving DecidableEq

/-- The `openApiSchema` node: `{ s3 }`. -/
structure OpenApiSchemaRef where
  s3 : Option S3Ref
deriving DecidableEq

/-- The `mcp` node: `{ openApiSchema }`. -/
structure McpConfig where
  openApiSchema : Option OpenApiSchemaRef
deriving DecidableEq

/-- A target configuration `{ mcp: { openApiSchema: { s3: { uri } } } }`,
every level possibly absent, exactly as the TypeScript code reads it through
optional chaining. -/
structure TargetConfiguration where
  mcp : Option McpConfig
deriving DecidableEq

/-- The optional chain `c.mcp?.openApiSchema?.s3?.uri`. -/
def s3UriOf (c : TargetConfiguration) : Option String :=
  (((c.mcp.bind McpConfig.openApiSchema).bind OpenApiSchemaRef.s3).bind S3Ref.uri)

/-- The optional chain `t?.targetConfiguration?.mcp?.openApiSchema?.s3?.uri`
starting from a possibly-absent configuration. -/
def configS3Uri (oc : Option TargetConfiguration) : Option String :=
  oc.bind s3UriOf

/-- Whether `c.mcp?.openApiSchema?.s3` is present (the guard of the splice
assignment in `updateGatewayTarget`). -/
def hasS3Node (c : TargetConfiguration) : Bool :=
  match c.mcp with
  | none => false
  | some m =>
    match m.openApiSchema with
    | none => false
    | some o => o.s3.isSome

/-- The assignment `finalTargetConfiguration.mcp.openApiSchema.s3.uri = u`,
which in the source is guarded by `finalTargetConfiguration.mcp?.openApiSchema?.s3`
being present; when the guard fails nothing is written. -/
def setS3Uri (c : TargetConfiguration) (u : String) : TargetConfiguration :=
  match c.mcp with
  | none => c
  | some m =>
    match m.openApiSchema with
    | none => c
    | some o =>
      match o.s3 with
      | none => c
      | some _ =>
        { mcp := some { openApiSchema := some { s3 := some { uri := some u } } } }

/-- The innermost `apiKeyCredentialProvider` object built by
`createGatewayTarget`. -/
structure ApiKeyCredentialProvider where
  credentialParameterName : String
  providerArn : String
  credentialLocation : String
deriving DecidableEq

/-- The `credentialProvider` wrapper object. -/
structure CredentialProvider where
  apiKeyCredentialProvider : ApiKeyCredentialProvider
deriving DecidableEq

/-- One element of `credentialProviderConfigurations`. -/
structure CredentialProviderConfiguration where
  credentialProviderType : String
  credentialProvider : CredentialProvider
deriving DecidableEq

/-- The current persisted record of a gateway target, as read back by
`GetGatewayTarget`.  Only the fields the reconciler consults are modelled;
each may be absent in the raw record. -/
structure GatewayTarget where
  targetConfiguration : Option TargetConfiguration
  credentialProviderConfigurations : Option (List CredentialProviderConfiguration)
  description : Option String
deriving DecidableEq

/-- The remote gateway store: `(gatewayId, targetId)` to the stored target. -/
def GatewayStore : Type :=
  String → String → Option GatewayTarget

/-- Errors raised by `updateGatewayTarget`. -/
inductive UpdateError where
  | notFound (gatewayId targetId : String)
  | configRequired
deriving DecidableEq

/-- The parameter object handed to `UpdateGatewayTargetCommand` (the
full-replace write).  Fields the code leaves unset are `none`. -/
structure UpdateParams where
  gatewayIdentifier : String
  targetId : String
  name : String
  targetConfiguration : Option TargetConfiguration
  credentialProviderConfigurations : Option (List CredentialProviderConfiguration)
  description : Option String
deriving DecidableEq

/-- The observable outcome of one `updateGatewayTarget` call: the write that
was submitted to the remote service (if any) and the returned result. -/
structure UpdateRun where
  submittedWrite : Option UpdateParams
  result : Except UpdateError UpdateParams

/-- ToolsService.getGatewayTarget: look the pair up; a missing pair raises
the not-found error. -/
def getGatewayTarget (store : GatewayStore) (gatewayId targetId : String) :
    Except UpdateError GatewayTarget :=
  match store gatewayId targetId with
  | some t => Except.ok t
  | none => Except.error (UpdateError.notFound gatewayId targetId)

/-- ToolsService.updateGatewayTarget.  Mirrors the source step for step:
fetch the current record with every fetch error caught (the record is then
`null`); fall back to the current configuration when none is supplied
(failing when neither exists); splice the current S3 URI into the new
configuration when the new URI is falsy, the current one truthy and the new
configuration contains the `s3` node; take supplied credentials verbatim,
else copy the current ones when present; copy the description only when
supplied; then submit the full-replace write, which fails with not-found
when the pair does not exist remotely. -/
def updateGatewayTarget (store : GatewayStore)
    (gatewayId targetId targetName : String)
    (targetConfiguration : Option TargetConfiguration)
    (description : Option String)
    (credentialProviderConfigurations : Option (List CredentialProviderConfiguration)) :
    UpdateRun :=
  let existingTarget : Option GatewayTarget :=
    match getGatewayTarget store gatewayId targetId with
    | Except.ok t => some t
    | Except.error _ => none
  match targetConfiguration, existingTarget with
  | none, none =>
    { submittedWrite := none, result := Except.error UpdateError.configRequired }
  | newCfg, existing =>
    let finalCfg0 : Option TargetConfiguration :=
      match newCfg with
      | some c => some c
      | none =>
        match existing with
        | some t => t.targetConfiguration
        | none => none
    let finalCfg : Option TargetConfiguration :=
      match existing, finalCfg0 with
      | some t, some c =>
        let existingS3Uri := configS3Uri t.targetConfiguration
        let newS3Uri := s3UriOf c
        if !strTruthy newS3Uri && strTruthy existingS3Uri then
          some (setS3Uri c (existingS3Uri.getD ""))
        else
          some c
      | _, _ => finalCfg0
    let creds : Option (List CredentialProviderConfiguration) :=
      match credentialProviderConfigurations with
      | some cs => some cs
      | none =>
        match existing with
        | some t =>
          match t.credentialProviderConfigurations with
          | some existingCreds => some existingCreds
          | none => none
        | none => none
    let updateParams : UpdateParams :=
      { gatewayIdentifier := gatewayId
        targetId := targetId
        name := targetName
        targetConfiguration := finalCfg
        credentialProviderConfigurations := creds
        description := description }
    match store gatewayId targetId with
    | none =>
      { submittedWrite := some updateParams
        result := Except.error (UpdateError.notFound gatewayId targetId) }
    | some _ =>
      { submittedWrite := some updateParams
        result := Except.ok updateParams }

example :
    (updateGatewayTarget (fun _ _ => none) "g1" "t1" "n" none none none).submittedWrite
      = none := by decide

/-- A target configuration whose only content is the given S3 URI. -/
def uriConfig (u : String) : TargetConfiguration :=
  { mcp := some { openApiSchema := some { s3 := some { uri := some u } } } }

/-- A stored target record holding the given S3 URI and nothing else. -/
def uriRecord (u : String) : GatewayTarget :=
  { targetConfiguration := some (uriConfig u)
    credentialProviderConfigurations := none
    description := none }

/-- A store holding exactly one record, at `("g1", "t1")`. -/
def singleStore (rec : GatewayTarget) : GatewayStore :=
  fun g t => if g = "g1" ∧ t = "t1" then some rec else none

example :
    (updateGatewayTarget (singleStore (uriRecord "s3://b/old.json")) "g1" "t1" "n"
      (some { mcp := some { openApiSchema := some { s3 := some { uri := some "" } } } })
      none none).submittedWrite.map (fun p => configS3Uri p.targetConfiguration)
      = some (some "s3://b/old.json") := by decide

theorem s3UriOf_setS3Uri (c : TargetConfiguration) (u : String)
    (h : hasS3Node c = true) : s3UriOf (setS3Uri c u) = some u := by
  obtain ⟨mcp⟩ := c
  cases mcp with
  | none => simp [hasS3Node] at h
  | some m =>
    obtain ⟨oas⟩ := m
    cases oas with
    | none => simp [hasS3Node] at h
    | some o =>
      obtain ⟨s3⟩ := o
      cases s3 with
      | none => simp [hasS3Node] at h
      | some s => simp [setS3Uri, s3UriOf]

/-- C1 counterexample.  The claim quantifies over every new configuration
whose nested `mcp.openApiSchema.s3.uri` is empty or absent.  Concrete input:
the stored record at `("g1","t1")` has URI `s3://b/old.json`, and the update
supplies a configuration whose `mcp.openApiSchema` node is present but whose
`s3` node is absent (so the URI is absent).  The merged payload's URI is
absent (`some none` after projecting), not the current record's URI: the
guarded splice assignment silently does nothing when the `s3` node is
missing, so the spec URI is erased. -/
theorem update_uri_splice_fails_without_s3_node :
    (s3UriOf { mcp := some { openApiSchema := some { s3 := none } } } = none) ∧
    (configS3Uri (uriRecord "s3://b/old.json").targetConfiguration
      = some "s3://b/old.json") ∧
    ((updateGatewayTarget (singleStore (uriRecord "s3://b/old.json")) "g1" "t1" "n"
        (some { mcp := some { openApiSchema := some { s3 := none } } })
        none none).submittedWrite.map (fun p => configS3Uri p.targetConfiguration)
      = some none) := by
  refine ⟨rfl, rfl, rfl⟩

/-- C1 amended: when the caller-supplied new configuration contains the
`mcp.openApiSchema.s3` node but its `uri` is empty or absent, and the current
record has a non-empty URI, the merged update payload submitted by
`updateGatewayTarget` carries the current record's URI (splice-through).
Without the `s3` node the splice does not happen (see the counterexample). -/
theorem update_uri_splice_with_s3_node
    (store : GatewayStore) (g t n : String) (c : TargetConfiguration)
    (d : Option String) (creds : Option (List CredentialProviderConfiguration))
    (rec : GatewayTarget) (u : String)
    (hstore : store g t = some rec)
    (hnode : hasS3Node c = true)
    (hnew : strTruthy (s3UriOf c) = false)
    (hcur : configS3Uri rec.targetConfiguration = some u)
    (hu : u ≠ "") :
    ∃ p, (updateGatewayTarget store g t n (some c) d creds).submittedWrite = some p ∧
      configS3Uri p.targetConfiguration = some u := by
  have hie : u.isEmpty = false := by
    cases hb : u.isEmpty
    · rfl
    · exact absurd ((String.isEmpty_iff u).mp hb) hu
  have hue : strTruthy (some u) = true := by simp [strTruthy, hie]
  simp only [updateGatewayTarget, getGatewayTarget, hstore, hcur, hnew, hue,
    Bool.not_false, Bool.and_self, if_true, Option.getD_some]
  exact ⟨_, rfl, by simpa [configS3Uri] using s3UriOf_setS3Uri c u hnode⟩

/-- C1 witness for the amended theorem: record URI `s3://b/old.json`, update
configuration with the `s3` node present and an empty URI string. -/
theorem update_uri_splice_with_s3_node_witness :
    ∃ p, (updateGatewayTarget (singleStore (uriRecord "s3://b/old.json")) "g1" "t1" "n"
        (some { mcp := some { openApiSchema := some { s3 := some { uri := some "" } } } })
        none none).submittedWrite = some p ∧
      configS3Uri p.targetConfiguration = some "s3://b/old.json" :=
  update_uri_splice_with_s3_node
    (singleStore (uriRecord "s3://b/old.json")) "g1" "t1" "n"
    { mcp := some { openApiSchema := some { s3 := some { uri := some "" } } } }
    none none (uriRecord "s3://b/old.json") "s3://b/old.json"
    (by decide) (by decide) (by decide) (by decide) (by decide)

/-- C2 counterexample.  Concrete input: the store is empty (the pair
`("g1","t1")` does not exist) and the caller supplies a new configuration.
The call does fail with a not-found error, but only after the full-replace
write has been attempted: `submittedWrite` is not `none`, refuting "no write
is attempted".  The fetch failure is merely logged and execution proceeds. -/
theorem update_nonexistent_attempts_write :
    ((updateGatewayTarget (fun _ _ => none) "g1" "t1" "n"
        (some (uriConfig "s3://b/new.json")) none none).result
      = Except.error (UpdateError.notFound "g1" "t1")) ∧
    (updateGatewayTarget (fun _ _ => none) "g1" "t1" "n"
        (some (uriConfig "s3://b/new.json")) none none).submittedWrite ≠ none :=
  ⟨rfl, by decide⟩

/-- C2 amended: for a nonexistent `(gatewayId, targetId)` pair the fetch
failure is caught and logged; if the caller supplied no new configuration the
call fails with the configuration-required error before any write, but if a
new configuration was supplied the full-replace write IS attempted and the
not-found error comes from that write. -/
theorem update_nonexistent_behavior
    (store : GatewayStore) (g t n : String) (d : Option String)
    (creds : Option (List CredentialProviderConfiguration))
    (h : store g t = none) :
    ((updateGatewayTarget store g t n none d creds).submittedWrite = none ∧
      (updateGatewayTarget store g t n none d creds).result
        = Except.error UpdateError.configRequired) ∧
    ∀ c : TargetConfiguration,
      (updateGatewayTarget store g t n (some c) d creds).submittedWrite.isSome = true ∧
      (updateGatewayTarget store g t n (some c) d creds).result
        = Except.error (UpdateError.notFound g t) := by
  refine ⟨⟨?_, ?_⟩, fun c => ⟨?_, ?_⟩⟩ <;>
    simp [updateGatewayTarget, getGatewayTarget, h]

/-- C2 witness for the amended theorem, on the empty store. -/
theorem update_nonexistent_behavior_witness :
    ((updateGatewayTarget (fun _ _ => none) "g1" "t1" "n" none none none).submittedWrite
        = none ∧
      (updateGatewayTarget (fun _ _ => none) "g1" "t1" "n" none none none).result
        = Except.error UpdateError.configRequired) ∧
    ∀ c : TargetConfiguration,
      (updateGatewayTarget (fun _ _ => none) "g1" "t1" "n" (some c) none none).submittedWrite.isSome
          = true ∧
      (updateGatewayTarget (fun _ _ => none) "g1" "t1" "n" (some c) none none).result
        = Except.error (UpdateError.notFound "g1" "t1") :=
  update_nonexistent_behavior (fun _ _ => none) "g1" "t1" "n" none none rfl

/-- C3: on an update of an existing target, explicitly supplied credential
configurations (including the explicit empty list) enter the merged payload
verbatim, while an absent credential argument falls back to the current
record's credential configurations. -/
theorem update_credentials_merge
    (store : GatewayStore) (g t n : String) (cfg : Option TargetConfiguration)
    (d : Option String) (creds : Option (List CredentialProviderConfiguration))
    (rec : GatewayTarget) (h : store g t = some rec) :
    ∃ p, (updateGatewayTarget store g t n cfg d creds).submittedWrite = some p ∧
      p.credentialProviderConfigurations =
        (match creds with
         | some cs => some cs
         | none => rec.credentialProviderConfigurations) := by
  cases cfg <;> cases creds <;> cases hc : rec.credentialProviderConfigurations <;>
    simp [updateGatewayTarget, getGatewayTarget, h, hc]

/-- C3 witness: explicit empty credential list on an existing record that has
no stored credentials. -/
theorem update_credentials_merge_witness :
    ∃ p, (updateGatewayTarget (singleStore (uriRecord "s3://b/old.json")) "g1" "t1" "n"
        none none (some [])).submittedWrite = some p ∧
      p.credentialProviderConfigurations = some [] :=
  update_credentials_merge (singleStore (uriRecord "s3://b/old.json")) "g1" "t1" "n"
    none none (some []) (uriRecord "s3://b/old.json") (by decide)

/-- C4: an update of an existing target that omits the new configuration
entirely submits the current record's `targetConfiguration` unchanged; in
particular the nested S3 URI equals the prior stored value whenever present. -/
theorem update_omitted_config_uses_current
    (store : GatewayStore) (g t n : String) (d : Option String)
    (creds : Option (List CredentialProviderConfiguration))
    (rec : GatewayTarget) (h : store g t = some rec) :
    ∃ p, (updateGatewayTarget store g t n none d creds).submittedWrite = some p ∧
      p.targetConfiguration = rec.targetConfiguration ∧
      ∀ u, configS3Uri rec.targetConfiguration = some u →
        configS3Uri p.targetConfiguration = some u := by
  cases hcfg : rec.targetConfiguration with
  | none =>
    simp only [updateGatewayTarget, getGatewayTarget, h, hcfg]
    exact ⟨_, rfl, rfl, fun u hu => hu⟩
  | some c =>
    cases hb : strTruthy (s3UriOf c) <;>
      simp only [updateGatewayTarget, getGatewayTarget, h, hcfg, configS3Uri,
        Option.some_bind', hb, Bool.not_false, Bool.not_true, Bool.false_and,
        Bool.and_false, Bool.and_true, Bool.true_and, if_false,
        Bool.false_eq_true, if_neg, ite_false, ite_true] <;>
      exact ⟨_, rfl, rfl, fun u hu => hu⟩

/-- C4 witness: record with URI `s3://b/old.json`, update omitting the
configuration. -/
theorem update_omitted_config_uses_current_witness :
    ∃ p, (updateGatewayTarget (singleStore (uriRecord "s3://b/old.json")) "g1" "t1" "n"
        none none none).submittedWrite = some p ∧
      p.targetConfiguration = (uriRecord "s3://b/old.json").targetConfiguration ∧
      ∀ u, configS3Uri (uriRecord "s3://b/old.json").targetConfiguration = some u →
        configS3Uri p.targetConfiguration = some u :=
  update_omitted_config_uses_current (singleStore (uriRecord "s3://b/old.json"))
    "g1" "t1" "n" none none (uriRecord "s3://b/old.json") (by decide)

/-- C5 counterexample.  Concrete input: the stored record at `("g1","t1")`
has description `old description`, and the update omits `newDescription`.
The merged payload's description is absent (`some none` after projecting),
not the current record's description: omitted descriptions are dropped from
the full-replace payload, not backfilled. -/
theorem update_omitted_description_dropped :
    ({ targetConfiguration := some (uriConfig "s3://b/old.json")
       credentialProviderConfigurations := none
       description := some "old description" : GatewayTarget }.description
      = some "old description") ∧
    ((updateGatewayTarget
        (singleStore
          { targetConfiguration := some (uriConfig "s3://b/old.json")
            credentialProviderConfigurations := none
            description := some "old description" })
        "g1" "t1" "n" none none none).submittedWrite.map UpdateParams.description
      = some none) :=
  ⟨rfl, rfl⟩

/-- C5 amended: the merged payload's description always equals the
caller-supplied description argument; when the caller omits it the payload
omits it too (there is no fallback to the current record's description —
only `targetConfiguration` and `credentialProviderConfigurations` fall back). -/
theorem update_description_passthrough
    (store : GatewayStore) (g t n : String) (cfg : Option TargetConfiguration)
    (d : Option String) (creds : Option (List CredentialProviderConfiguration))
    (rec : GatewayTarget) (h : store g t = some rec) :
    ∃ p, (updateGatewayTarget store g t n cfg d creds).submittedWrite = some p ∧
      p.description = d := by
  cases cfg <;> simp [updateGatewayTarget, getGatewayTarget, h]

/-- C5 witness for the amended theorem: omitted description yields an absent
description in the payload even though the record has one. -/
theorem update_description_passthrough_witness :
    ∃ p, (updateGatewayTarget
        (singleStore
          { targetConfiguration := some (uriConfig "s3://b/old.json")
            credentialProviderConfigurations := none
            description := some "old description" })
        "g1" "t1" "n" none none none).submittedWrite = some p ∧
      p.description = none :=
  update_description_passthrough
    (singleStore
      { targetConfiguration := some (uriConfig "s3://b/old.json")
        credentialProviderConfigurations := none
        description := some "old description" })
    "g1" "t1" "n" none none none
    { targetConfiguration := some (uriConfig "s3://b/old.json")
      credentialProviderConfigurations := none
      description := some "old description" } (by decide)

/-- An error object thrown by the AWS SDK, as the TypeScript code inspects
it: a `name`, a `Code` property and a message. -/
structure AwsError where
  name : Option String
  Code : Option String
  message : String
deriving DecidableEq

/-- An error as seen by the HTTP controller: either a NestJS
`BadRequestException` (thrown by the validation service) or any other thrown
error, carrying its message. -/
inductive ServiceError where
  | badRequest (message : String)
  | generic (message : String)
deriving DecidableEq

/-- ServiceError.message: the message the controller reads off the error. -/
def ServiceError.msg : ServiceError → String
  | ServiceError.badRequest m => m
  | ServiceError.generic m => m

/-- The catch block of ToolsService.createGatewayTarget: an AWS error whose
`Code` is `ConflictException` is re-thrown as a plain Error with the
duplicate-name message; everything else is re-thrown as is.  Neither case is
a `BadRequestException`. -/
def createGatewayTargetError (gatewayId targetName : String) (e : AwsError) :
    ServiceError :=
  if e.Code = some "ConflictException" then
    ServiceError.generic
      ("Target " ++ targetName ++ " already exists on gateway " ++ gatewayId)
  else
    ServiceError.generic e.message

/-- An HTTP error response produced by a controller catch block: either a
plain `HttpException(message, statusCode)` (a re-thrown NestJS exception) or
an `HttpException({status, error}, statusCode)` body. -/
inductive HttpErrorResponse where
  | plain (statusCode : Nat) (message : String)
  | withBody (statusCode : Nat) (status : Nat) (error : String)
deriving DecidableEq

/-- The HTTP status code of an error response. -/
def HttpErrorResponse.statusCode : HttpErrorResponse → Nat
  | HttpErrorResponse.plain sc _ => sc
  | HttpErrorResponse.withBody sc _ _ => sc

/-- The catch block of `POST /tools/from-spec` (AppController.createToolFromSpec):
a `BadRequestException` is re-thrown unchanged (HTTP 400); every other error
becomes a 500 with a `{status, error}` body. -/
def createToolFromSpecCatch (e : ServiceError) : HttpErrorResponse :=
  match e with
  | ServiceError.badRequest m => HttpErrorResponse.plain 400 m
  | ServiceError.generic m => HttpErrorResponse.withBody 500 500 m

/-- The catch block of `POST /tools/from-url` (AppController.createToolFromUrl):
every error, including a `BadRequestException`, becomes a 500 with a
`{status, error}` body. -/
def createToolFromUrlCatch (e : ServiceError) : HttpErrorResponse :=
  HttpErrorResponse.withBody 500 500 e.msg

/-- The catch block of `POST /tools/from-api-info`
(AppController.createToolFromApiInfo): identical to the from-url one — every
error becomes a 500 with a `{status, error}` body. -/
def createToolFromApiInfoCatch (e : ServiceError) : HttpErrorResponse :=
  HttpErrorResponse.withBody 500 500 e.msg

/-- The `auth.config` object of a tool-creation request. -/
structure AuthConfigDto where
  api_key : Option String
  api_key_param_name : Option String
  api_key_location : Option String
deriving DecidableEq

/-- The `auth` object of a tool-creation request. -/
structure AuthDto where
  type : Option String
  config : Option AuthConfigDto
  provider_name : Option String
deriving DecidableEq

/-- ValidationsService.validateAuth: absent auth or a non-`api_key` type
passes; with type `api_key`, a falsy `auth.config?.api_key` or a falsy
`auth.provider_name` raises a `BadRequestException`. -/
def validateAuth (auth : Option AuthDto) : Except ServiceError Unit :=
  match auth with
  | none => Except.ok ()
  | some a =>
    if a.type ≠ some "api_key" then Except.ok ()
    else if !strTruthy (a.config.bind AuthConfigDto.api_key) then
      Except.error (ServiceError.badRequest
        "api_key is required in auth.config when auth.type is \"api_key\"")
    else if !strTruthy a.provider_name then
      Except.error (ServiceError.badRequest
        "auth.provider_name is required when auth.type is \"api_key\"")
    else Except.ok ()

/-- The HTTP outcome of the auth-validation step of an endpoint: `none` when
validation passed and the handler proceeds, otherwise the error response the
endpoint's catch block produces. -/
def authCheckResponse (catcher : ServiceError → HttpErrorResponse)
    (auth : Option AuthDto) : Option HttpErrorResponse :=
  match validateAuth auth with
  | Except.ok _ => none
  | Except.error e => some (catcher e)

/-- C6: when the underlying service reports a duplicate-name conflict on
target creation (`ConflictException`), the `/tools/from-spec` surface
responds with a generic 500 carrying a `{status, error}` body — not with a
distinct 409 Conflict status. -/
theorem conflict_surfaces_as_500 (gatewayId targetName : String) (e : AwsError)
    (h : e.Code = some "ConflictException") :
    createToolFromSpecCatch (createGatewayTargetError gatewayId targetName e)
      = HttpErrorResponse.withBody 500 500
          ("Target " ++ targetName ++ " already exists on gateway " ++ gatewayId) ∧
    (createToolFromSpecCatch
        (createGatewayTargetError gatewayId targetName e)).statusCode ≠ 409 := by
  simp [createGatewayTargetError, createToolFromSpecCatch, h,
    HttpErrorResponse.statusCode]

/-- C6 witness: a concrete conflict error. -/
theorem conflict_surfaces_as_500_witness :
    createToolFromSpecCatch
        (createGatewayTargetError "g1" "tool1"
          { name := some "ConflictException", Code := some "ConflictException",
            message := "conflict" })
      = HttpErrorResponse.withBody 500 500
          ("Target " ++ "tool1" ++ " already exists on gateway " ++ "g1") ∧
    (createToolFromSpecCatch
        (createGatewayTargetError "g1" "tool1"
          { name := some "ConflictException", Code := some "ConflictException",
            message := "conflict" })).statusCode ≠ 409 :=
  conflict_surfaces_as_500 "g1" "tool1"
    { name := some "ConflictException", Code := some "ConflictException",
      message := "conflict" } rfl

/-- C7 counterexample.  Concrete input: an `api_key` auth object whose
`config` (and hence `config.api_key`) is missing.  Validation fails with a
`BadRequestException`, and `/tools/from-spec` does answer 400 — but
`/tools/from-url` answers 500, refuting the claim that the 400 rejection
holds uniformly across the three tool-creation endpoints. -/
theorem auth_reject_not_uniform_400 :
    (authCheckResponse createToolFromUrlCatch
        (some { type := some "api_key", config := none, provider_name := some "p" })).map
        HttpErrorResponse.statusCode = some 500 ∧
    (authCheckResponse createToolFromUrlCatch
        (some { type := some "api_key", config := none, provider_name := some "p" })).map
        HttpErrorResponse.statusCode ≠ some 400 :=
  ⟨rfl, by decide⟩

/-- C7 amended: a tool-creation request whose auth has type `api_key` but is
missing `auth.config.api_key` or `auth.provider_name` is rejected by
`validateAuth` with a `BadRequestException`; `/tools/from-spec` re-throws it
as HTTP 400, while `/tools/from-url` and `/tools/from-api-info` wrap every
error — this one included — into an HTTP 500 `{status, error}` response. -/
theorem auth_reject_status_by_endpoint (a : AuthDto)
    (htype : a.type = some "api_key")
    (hmiss : strTruthy (a.config.bind AuthConfigDto.api_key) = false ∨
      (strTruthy (a.config.bind AuthConfigDto.api_key) = true ∧
        strTruthy a.provider_name = false)) :
    ∃ m, validateAuth (some a) = Except.error (ServiceError.badRequest m) ∧
      authCheckResponse createToolFromSpecCatch (some a)
        = some (HttpErrorResponse.plain 400 m) ∧
      authCheckResponse createToolFromUrlCatch (some a)
        = some (HttpErrorResponse.withBody 500 500 m) ∧
      authCheckResponse createToolFromApiInfoCatch (some a)
        = some (HttpErrorResponse.withBody 500 500 m) := by
  rcases hmiss with hk | ⟨hk, hp⟩
  · exact ⟨"api_key is required in auth.config when auth.type is \"api_key\"",
      by simp [validateAuth, htype, hk],
      by simp [authCheckResponse, validateAuth, htype, hk, createToolFromSpecCatch],
      by simp [authCheckResponse, validateAuth, htype, hk, createToolFromUrlCatch,
        ServiceError.msg],
      by simp [authCheckResponse, validateAuth, htype, hk, createToolFromApiInfoCatch,
        ServiceError.msg]⟩
  · exact ⟨"auth.provider_name is required when auth.type is \"api_key\"",
      by simp [validateAuth, htype, hk, hp],
      by simp [authCheckResponse, validateAuth, htype, hk, hp, createToolFromSpecCatch],
      by simp [authCheckResponse, validateAuth, htype, hk, hp, createToolFromUrlCatch,
        ServiceError.msg],
      by simp [authCheckResponse, validateAuth, htype, hk, hp, createToolFromApiInfoCatch,
        ServiceError.msg]⟩

/-- C7 witness for the amended theorem: auth of type `api_key` with a
missing `config`. -/
theorem auth_reject_status_by_endpoint_witness :
    ∃ m, validateAuth
        (some { type := some "api_key", config := none, provider_name := some "p" })
        = Except.error (ServiceError.badRequest m) ∧
      authCheckResponse createToolFromSpecCatch
          (some { type := some "api_key", config := none, provider_name := some "p" })
        = some (HttpErrorResponse.plain 400 m) ∧
      authCheckResponse createToolFromUrlCatch
          (some { type := some "api_key", config := none, provider_name := some "p" })
        = some (HttpErrorResponse.withBody 500 500 m) ∧
      authCheckResponse createToolFromApiInfoCatch
          (some { type := some "api_key", config := none, provider_name := some "p" })
        = some (HttpErrorResponse.withBody 500 500 m) :=
  auth_reject_status_by_endpoint
    { type := some "api_key", config := none, provider_name := some "p" }
    rfl (Or.inl rfl)

/-- The parameter object handed to `CreateGatewayTargetCommand` by
ToolsService.createGatewayTarget. -/
structure CreateTargetParams where
  gatewayIdentifier : String
  name : String
  description : String
  targetConfiguration : TargetConfiguration
  credentialProviderConfigurations : List CredentialProviderConfiguration
deriving DecidableEq

/-- ToolsService.createGatewayTarget's request construction: the OpenAPI
target configuration around the S3 URI, a single API_KEY credential
configuration, and `description || "OpenAPI target: {name}"`. -/
def createGatewayTargetParams (gatewayId targetName openApiS3Uri
    apiKeyCredentialProviderArn apiKeyParamName apiKeyLocation : String)
    (description : Option String) : CreateTargetParams :=
  { gatewayIdentifier := gatewayId
    name := targetName
    description := jsOrString description ("OpenAPI target: " ++ targetName)
    targetConfiguration :=
      { mcp := some { openApiSchema := some { s3 := some { uri := some openApiS3Uri } } } }
    credentialProviderConfigurations :=
      [ { credentialProviderType := "API_KEY"
          credentialProvider :=
            { apiKeyCredentialProvider :=
                { credentialParameterName := apiKeyParamName
                  providerArn := apiKeyCredentialProviderArn
                  credentialLocation := apiKeyLocation } } } ] }

/-- The request issued to `CreateApiKeyCredentialProviderCommand`: a provider
name and the key to store.  Either may be `undefined` when the caller-supplied
auth object omitted it. -/
structure CredentialProviderRequest where
  name : Option String
  apiKey : Option String
deriving DecidableEq

/-- AppController.registerToolWithGateway.  Starts from the placeholder
defaults (`placeholder-not-used` key, `{targetName}-placeholder-apikey`
provider, header `X-Placeholder-Auth`) and overrides them from `auth` when
`auth.type` is `api_key` (reading `auth.config.api_key` throws when `config`
is absent, modelled as `none`); then creates/fetches the credential provider
(modelled by `providerArnOf`) and builds the target-creation request with the
returned ARN.  Returns the provider request and the creation request. -/
def registerToolWithGateway (gatewayId targetName openApiS3Uri : String)
    (auth : Option AuthDto) (description : Option String)
    (providerArnOf : CredentialProviderRequest → String) :
    Option (CredentialProviderRequest × CreateTargetParams) :=
  let placeholder : Option String × Option String × String × String :=
    (some "placeholder-not-used", some (targetName ++ "-placeholder-apikey"),
      "X-Placeholder-Auth", "HEADER")
  let resolved : Option (Option String × Option String × String × String) :=
    match auth with
    | some a =>
      if a.type = some "api_key" then
        match a.config with
        | none => none
        | some c =>
          some (c.api_key, a.provider_name,
            jsOrString c.api_key_param_name "api_key",
            jsOrString c.api_key_location "QUERY_PARAMETER")
      else some placeholder
    | none => some placeholder
  match resolved with
  | none => none
  | some (apiKey, apiKeyProviderName, apiKeyParamName, apiKeyLocation) =>
    let req : CredentialProviderRequest :=
      { name := apiKeyProviderName, apiKey := apiKey }
    let credentialProviderArn := providerArnOf req
    some (req,
      createGatewayTargetParams gatewayId targetName openApiS3Uri
        credentialProviderArn apiKeyParamName apiKeyLocation description)

/-- C9: when auth is absent or its type is not `api_key`, the flow still
creates an API-key credential provider named `{targetName}-placeholder-apikey`
holding the literal key `placeholder-not-used`, and the target-creation
request attaches exactly one credential configuration injecting that
provider's ARN as HTTP header `X-Placeholder-Auth`. -/
theorem placeholder_credentials_for_no_auth
    (gatewayId targetName openApiS3Uri : String) (auth : Option AuthDto)
    (description : Option String)
    (providerArnOf : CredentialProviderRequest → String)
    (h : ∀ a, auth = some a → a.type ≠ some "api_key") :
    ∃ req params,
      registerToolWithGateway gatewayId targetName openApiS3Uri auth description
        providerArnOf = some (req, params) ∧
      req.name = some (targetName ++ "-placeholder-apikey") ∧
      req.apiKey = some "placeholder-not-used" ∧
      params.credentialProviderConfigurations =
        [ { credentialProviderType := "API_KEY"
            credentialProvider :=
              { apiKeyCredentialProvider :=
                  { credentialParameterName := "X-Placeholder-Auth"
                    providerArn := providerArnOf req
                    credentialLocation := "HEADER" } } } ] := by
  cases auth with
  | none =>
    refine ⟨_, _, rfl, ?_, ?_, ?_⟩ <;> rfl
  | some a =>
    have ha : ¬ (a.type = some "api_key") := h a rfl
    simp only [registerToolWithGateway, if_neg ha]
    refine ⟨_, _, rfl, ?_, ?_, ?_⟩ <;> rfl

/-- C9 witness: no auth at all, with a constant ARN-assigning service. -/
theorem placeholder_credentials_for_no_auth_witness :
    ∃ req params,
      registerToolWithGateway "g1" "tool1" "s3://b/spec.json" none none
        (fun _ => "arn:aws:acps:provider") = some (req, params) ∧
      req.name = some ("tool1" ++ "-placeholder-apikey") ∧
      req.apiKey = some "placeholder-not-used" ∧
      params.credentialProviderConfigurations =
        [ { credentialProviderType := "API_KEY"
            credentialProvider :=
              { apiKeyCredentialProvider :=
                  { credentialParameterName := "X-Placeholder-Auth"
                    providerArn := (fun _ => "arn:aws:acps:provider") req
                    credentialLocation := "HEADER" } } } ] :=
  placeholder_credentials_for_no_auth "g1" "tool1" "s3://b/spec.json" none none
    (fun _ => "arn:aws:acps:provider") (fun a ha => by cases ha)

/-- The parameter object handed to `ListGatewayTargetsCommand` by
ToolsService.listGatewayTargets.  Fields the code leaves unset are `none`. -/
structure ListTargetsParams where
  gatewayIdentifier : String
  maxResults : Option Int
  nextToken : Option String
deriving DecidableEq

/-- The parameter object handed to `ListGatewaysCommand` by
GatewayService.listGateways. -/
structure ListGatewaysParams where
  maxResults : Option Int
  nextToken : Option String
deriving DecidableEq

/-- ToolsService.listGatewayTargets up to the remote call: validates a
defined `maxResults` against [1, 1000] (throwing before any request is
built), sets a truthy `nextToken`, and returns the request that is then
issued; `Except.error` means the function threw and no request was issued. -/
def listGatewayTargetsRequest (gatewayId : String) (maxResults : Option Int)
    (nextToken : Option String) : Except String ListTargetsParams :=
  let tok : Option String := if strTruthy nextToken then nextToken else none
  match maxResults with
  | some m =>
    if m < 1 || m > 1000 then
      Except.error "maxResults must be between 1 and 1000"
    else
      Except.ok { gatewayIdentifier := gatewayId, maxResults := some m, nextToken := tok }
  | none =>
    Except.ok { gatewayIdentifier := gatewayId, maxResults := none, nextToken := tok }

/-- GatewayService.listGateways up to the remote call: identical `maxResults`
validation and `nextToken` handling, without a gateway identifier. -/
def listGatewaysRequest (maxResults : Option Int) (nextToken : Option String) :
    Except String ListGatewaysParams :=
  let tok : Option String := if strTruthy nextToken then nextToken else none
  match maxResults with
  | some m =>
    if m < 1 || m > 1000 then
      Except.error "maxResults must be between 1 and 1000"
    else
      Except.ok { maxResults := some m, nextToken := tok }
  | none =>
    Except.ok { maxResults := none, nextToken := tok }

/-- C10: for both `listGatewayTargets` and `listGateways`, a defined
`maxResults` outside [1, 1000] throws `maxResults must be between 1 and 1000`
before any remote list request is issued (the `Except.error` outcome carries
no request), a defined in-range value passes through to the issued request
unchanged, and an undefined value raises no error and sets no `maxResults`. -/
theorem list_max_results_validation (g : String) (m : Int) (nt : Option String) :
    ((m < 1 ∨ m > 1000) →
      listGatewayTargetsRequest g (some m) nt
          = Except.error "maxResults must be between 1 and 1000" ∧
      listGatewaysRequest (some m) nt
          = Except.error "maxResults must be between 1 and 1000") ∧
    (1 ≤ m ∧ m ≤ 1000 →
      (∃ p, listGatewayTargetsRequest g (some m) nt = Except.ok p ∧
        p.maxResults = some m) ∧
      (∃ q, listGatewaysRequest (some m) nt = Except.ok q ∧
        q.maxResults = some m)) ∧
    ((∃ p, listGatewayTargetsRequest g none nt = Except.ok p ∧
        p.maxResults = none) ∧
      (∃ q, listGatewaysRequest none nt = Except.ok q ∧
        q.maxResults = none)) := by
  refine ⟨fun hout => ?_, fun hin => ?_,
    ⟨{ gatewayIdentifier := g, maxResults := none,
       nextToken := if strTruthy nt then nt else none }, rfl, rfl⟩,
    ⟨{ maxResults := none,
       nextToken := if strTruthy nt then nt else none }, rfl, rfl⟩⟩
  · have hb : (m < 1 || m > 1000) = true := by
      rcases hout with h1 | h2
      · simp [h1]
      · simp [h2]
    exact ⟨by simp [listGatewayTargetsRequest, hb],
      by simp [listGatewaysRequest, hb]⟩
  · have hb : (m < 1 || m > 1000) = false := by
      simp only [Bool.or_eq_false_iff, decide_eq_false_iff_not, not_lt]
      exact ⟨hin.1, hin.2⟩
    exact ⟨⟨{ gatewayIdentifier := g, maxResults := some m,
              nextToken := if strTruthy nt then nt else none },
        by simp [listGatewayTargetsRequest, hb], rfl⟩,
      ⟨{ maxResults := some m,
         nextToken := if strTruthy nt then nt else none },
        by simp [listGatewaysRequest, hb], rfl⟩⟩

/-- C10 witness: out-of-range value 0 throws for both services; in-range
value 5 passes through for both. -/
theorem list_max_results_validation_witness :
    (listGatewayTargetsRequest "g1" (some 0) none
        = Except.error "maxResults must be between 1 and 1000" ∧
      listGatewaysRequest (some 0) none
        = Except.error "maxResults must be between 1 and 1000") ∧
    ((∃ p, listGatewayTargetsRequest "g1" (some 5) none = Except.ok p ∧
        p.maxResults = some 5) ∧
      (∃ q, listGatewaysRequest (some 5) none = Except.ok q ∧
        q.maxResults = some 5)) :=
  ⟨(list_max_results_validation "g1" 0 none).1 (Or.inl (by decide)),
    (list_max_results_validation "g1" 5 none).2.1 (by decide)⟩

/-- An object stored in S3 by `PutObjectCommand`. -/
structure S3Object where
  bucket : String
  key : String
  body : String
  contentType : String
deriving DecidableEq

/-- The modelled state of the S3 service: the set of existing buckets and
the stored objects. -/
structure S3State where
  buckets : List String
  objects : List S3Object
deriving DecidableEq

/-- The account-derived default bucket name used when none is passed. -/
def defaultSpecsBucket (accountId awsRegion : String) : String :=
  "agentcore-gateways-targets-openapi-specs-" ++ accountId ++ "-" ++ awsRegion

/-- S3Service.ensureS3Bucket: derive the default name when the argument is
falsy, head the bucket, and create it only when the head reports it missing;
an already-existing bucket is simply kept (no error, no state change).
Returns the new state and the final bucket name. -/
def ensureS3Bucket (st : S3State) (bucketName : Option String)
    (accountId awsRegion : String) : S3State × String :=
  let name : String :=
    if strTruthy bucketName then bucketName.getD ""
    else defaultSpecsBucket accountId awsRegion
  if name ∈ st.buckets then (st, name)
  else ({ st with buckets := name :: st.buckets }, name)

/-- S3Service.uploadOpenApiSpec: ensure the bucket, build the hierarchical
object key `gateways/{gatewayId}/tools/{toolName}/{timestamp}-{randomId}.json`,
put the serialized spec under it as `application/json`, and return the
`s3://` URI of that key.  The timestamp and random suffix, produced from the
clock and the RNG in the source, are passed in as parameters. -/
def uploadOpenApiSpec (st : S3State) (specJson toolName gatewayId : String)
    (bucketName : Option String) (accountId awsRegion : String)
    (timestamp : Nat) (randomId : String) : S3State × String :=
  let ensured := ensureS3Bucket st bucketName accountId awsRegion
  let finalBucketName := ensured.2
  let objectKey := "gateways/" ++ gatewayId ++ "/tools/" ++ toolName ++ "/"
    ++ toString timestamp ++ "-" ++ randomId ++ ".json"
  let afterPut : S3State :=
    { ensured.1 with objects :=
        { bucket := finalBucketName, key := objectKey, body := specJson,
          contentType := "application/json" } :: ensured.1.objects }
  (afterPut, "s3://" ++ finalBucketName ++ "/" ++ objectKey)

/-- C8: every OpenAPI-spec upload stores the JSON blob under the key
`gateways/{gatewayId}/tools/{toolName}/{timestamp}-{randomSuffix}.json` and
returns the `s3://` URI of exactly that key; the bucket ends up existing
(lazily created when absent) and an already-existing bucket is kept verbatim
rather than treated as an error. -/
theorem upload_spec_key_uri_and_bucket (st : S3State)
    (specJson toolName gatewayId : String) (bucketName : Option String)
    (accountId awsRegion : String) (timestamp : Nat) (randomId : String) :
    (uploadOpenApiSpec st specJson toolName gatewayId bucketName accountId
        awsRegion timestamp randomId).2
      = "s3://" ++ (ensureS3Bucket st bucketName accountId awsRegion).2 ++ "/"
        ++ ("gateways/" ++ gatewayId ++ "/tools/" ++ toolName ++ "/"
          ++ toString timestamp ++ "-" ++ randomId ++ ".json") ∧
    ({ bucket := (ensureS3Bucket st bucketName accountId awsRegion).2
       key := "gateways/" ++ gatewayId ++ "/tools/" ++ toolName ++ "/"
         ++ toString timestamp ++ "-" ++ randomId ++ ".json"
       body := specJson
       contentType := "application/json" : S3Object }
      ∈ (uploadOpenApiSpec st specJson toolName gatewayId bucketName accountId
          awsRegion timestamp randomId).1.objects) ∧
    ((ensureS3Bucket st bucketName accountId awsRegion).2
      ∈ (uploadOpenApiSpec st specJson toolName gatewayId bucketName accountId
          awsRegion timestamp randomId).1.buckets) ∧
    ((uploadOpenApiSpec st specJson toolName gatewayId bucketName accountId
        awsRegion timestamp randomId).1.buckets
      = if (ensureS3Bucket st bucketName accountId awsRegion).2 ∈ st.buckets
        then st.buckets
        else (ensureS3Bucket st bucketName accountId awsRegion).2 :: st.buckets) := by
  set name : String :=
    if strTruthy bucketName then bucketName.getD ""
    else defaultSpecsBucket accountId awsRegion with hname
  have hens : ensureS3Bucket st bucketName accountId awsRegion
      = if name ∈ st.buckets then (st, name)
        else ({ st with buckets := name :: st.buckets }, name) := by
    rw [ensureS3Bucket]
  by_cases hmem : name ∈ st.buckets
  · refine ⟨?_, ?_, ?_, ?_⟩ <;>
      simp [uploadOpenApiSpec, hens, hmem]
  · refine ⟨?_, ?_, ?_, ?_⟩ <;>
      simp [uploadOpenApiSpec, hens, hmem]
